import Mathlib

/-!
Verification development for the uvalib/ocr-lambda repository.

The repository has two executables:

* `cmd/ocr-ws` — an HTTP web service whose `generateHandler`
  (cmd/ocr-ws/generate.go) derives a job key from the request, checks for an
  existing destination directory, resolves the page manifest against the
  Tracksys metadata collaborator, and launches OCR generation in a goroutine.
* `cmd/ocr-lambda` — an AWS lambda (cmd/ocr-lambda/main.go, plus an older
  variant of the same lambda preserved in the repository, here called the
  "old" variant) that runs the download / language-resolution / convert /
  recognize / upload pipeline.

The definitions below are shallow embeddings of those functions.  External
collaborators (the filesystem, S3, the Tracksys API, HTTP fetches, external
processes) are modelled as explicit parameters; control flow, argument
construction and string manipulation are translated directly from the Go
source.
-/

namespace Ocr

/-! ## `cmd/ocr-ws/generate.go`: request shape and job-identity derivation -/

/-- Embeds `ocrRequest` (generate.go lines 21-27): the fields of the incoming
HTTP request that `generateHandler` saves. -/
structure OcrRequest where
  pid : String
  unit : String
  pages : String
  token : String
  email : String
  deriving DecidableEq

/-- Embeds `pageInfo` (generate.go lines 13-19).  Only `PID` participates in
the handler's control flow; the remaining fields are carried for fidelity. -/
structure PageInfo where
  PID : String
  filename : String
  title : String
  txtFile : String
  lang : String
  deriving DecidableEq

/-- Models Go `strconv.Atoi` as used at generate.go line 53, where the error
is discarded (`ocr.unitID, _ = strconv.Atoi(...)`): a string that is an
optionally signed decimal numeral parses to its value, anything else yields 0
(the value `Atoi` returns alongside a syntax error).  The clamping Go applies
on 64-bit overflow is not modelled; no claim involves such inputs. -/
def goAtoi (s : String) : Int :=
  let parse : Int → List Char → Int := fun sign ds =>
    if ds.isEmpty || !(ds.all Char.isDigit) then 0
    else sign * (ds.foldl (fun n c => n * 10 + (c.toNat - 48)) 0 : Nat)
  match s.data with
  | '+' :: ds => parse 1 ds
  | '-' :: ds => parse (-1) ds
  | ds => parse 1 ds

/-- Embeds the job-identity (work-directory key) computation of
`generateHandler` (generate.go lines 52-71): the key starts as the request
pid, becomes `pid/unitID` when the parsed unit id is positive, and becomes
the token when a page list is present; a page list without a token is the
handler's 400 error, modelled as `none`. -/
def deriveWorkDir (req : OcrRequest) : Option String :=
  let unitID := goAtoi req.unit
  let wd := if unitID > 0 then req.pid ++ "/" ++ toString unitID else req.pid
  if req.pages.length > 0 then
    if req.token.length = 0 then none else some req.token
  else
    some wd

/-- Observable actions of `generateHandler`, in program order: the
`os.Stat` probe of the destination directory, the call to
`monitorProgressAndNotifyResults`, the `tsGetPages` and `tsGetText`
collaborator calls, an HTTP response (status code and body), and the
`go generateOcr(ocr)` launch. -/
inductive GEffect where
  | statDest (dir : String)
  | monitorProgress (workDir pid email : String)
  | tsPagesLookup (pid : String)
  | tsTextLookup (pid : String)
  | respond (status : Nat) (body : String)
  | launchOcr (workDir : String)
  deriving DecidableEq

/-- Environment of one `generateHandler` call: the configured storage root
(`config.storageDir.value`), the filesystem probe for existing destination
directories (`os.Stat` succeeding), and the Tracksys collaborator's answer
(`tsGetPages`, an external API client). -/
structure GenerateEnv where
  storageDir : String
  destExists : String → Bool
  tsPages : Except String (List PageInfo)

/-- Embeds `generateHandler` (generate.go lines 40-125) as the list of
observable effects it performs, in order:

1. derive the work-directory key; a page list without a token responds
   `400 "Missing token"` and returns at once (lines 62-68);
2. probe `storageDir/workDir`; if it exists, call
   `monitorProgressAndNotifyResults` and return (lines 73-82);
3. call `tsGetPages`; on error respond 404 (lines 84-91);
4. drop pages whose `PID` is empty (lines 93-100); if none remain respond
   `404 "No pages found for this PID"` (lines 102-107);
5. otherwise call `tsGetText` (logging only) and launch `generateOcr` in a
   goroutine (lines 115-124). -/
def generateHandler (env : GenerateEnv) (req : OcrRequest) : List GEffect :=
  match deriveWorkDir req with
  | none => [GEffect.respond 400 "Missing token"]
  | some wd =>
    let destDir := env.storageDir ++ "/" ++ wd
    if env.destExists destDir then
      [GEffect.statDest destDir, GEffect.monitorProgress wd req.pid req.email]
    else
      match env.tsPages with
      | Except.error e =>
        [GEffect.statDest destDir, GEffect.tsPagesLookup req.pid,
         GEffect.respond 404 ("Tracksys API error: [" ++ e ++ "]")]
      | Except.ok ts =>
        let pages := ts.filter (fun p => p.PID ≠ "")
        if pages.length = 0 then
          [GEffect.statDest destDir, GEffect.tsPagesLookup req.pid,
           GEffect.respond 404 "No pages found for this PID"]
        else
          [GEffect.statDest destDir, GEffect.tsPagesLookup req.pid,
           GEffect.tsTextLookup req.pid, GEffect.launchOcr wd]

/-! ## `cmd/ocr-lambda/main.go`: language dependency resolution
(`checkLanguages`, lines 232-290; identical in the old lambda variant). -/

/-- Helper for `goSplit`: splits a character list on `'+'`, keeping empty
components, as Go `strings.Split` does for a one-character separator. -/
def splitPlusChars : List Char → List (List Char)
  | [] => [[]]
  | c :: cs =>
    match splitPlusChars cs with
    | [] => [[]]
    | g :: gs => if c = '+' then [] :: g :: gs else (c :: g) :: gs

/-- Models Go `strings.Split(langStr, "+")` (main.go line 233).  In
particular `goSplit "" = [""]`, matching Go. -/
def goSplit (s : String) : List String :=
  (splitPlusChars s.data).map (fun l => String.mk l)

/-- Embeds `langsMap` (main.go lines 237-242): the fixed bidirectional
script-variant pair table.  Go's map lookup yields `""` for absent keys and
the caller tests `langDep != ""`; that is modelled as `Option`. -/
def langsMap (l : String) : Option String :=
  if l = "aze" then some "aze_cyrl"
  else if l = "aze_cyrl" then some "aze"
  else if l = "uzb" then some "uzb_cyrl"
  else if l = "uzb_cyrl" then some "uzb"
  else none

/-- The contribution of one requested code to `langsAll` in the loop at
main.go lines 247-258: an empty component is skipped; otherwise the code is
appended, followed by its paired code when the table has one. -/
def langContrib (l : String) : List String :=
  if l = "" then []
  else
    match langsMap l with
    | some dep => [l, dep]
    | none => [l]

/-- Embeds the construction of `langsAll` in `checkLanguages` (main.go lines
244-258): start from `["osd"]` and append each split component's
contribution in order. -/
def expandLanguages (langStr : String) : List String :=
  (goSplit langStr).foldl (fun acc l => acc ++ langContrib l) ["osd"]

/-- Embeds the caller-layer language default of `handleGenericOcrRequest`
(main.go lines 369-373): an empty request language becomes `"eng"`. -/
def effectiveLangStr (languages : String) : String :=
  if languages = "" then "eng" else languages

/-- The local data-file path `fmt.Sprintf("%s/%s.traineddata",
os.Getenv("TESSDATA_PREFIX"), l)` (main.go line 268), with the directory as
an explicit parameter. -/
def tessLangFile (dataDir l : String) : String :=
  dataDir ++ "/" ++ l ++ ".traineddata"

/-- The templated remote location shared by both fetch attempts (main.go
lines 260-262, `langURLTemplate` with `langType = "fast"`,
`langBranch = "4.0.0"`). -/
def langDataURLBase : String :=
  "https://github.com/tesseract-ocr/tessdata_fast/raw/4.0.0/"

/-- The language-file URL, main.go line 274. -/
def langFileURL (l : String) : String :=
  langDataURLBase ++ l ++ ".traineddata"

/-- The script-file URL, main.go line 280. -/
def scriptFileURL (l : String) : String :=
  langDataURLBase ++ "script/" ++ l ++ ".traineddata"

/-- One iteration of the loop body of `checkLanguages` (main.go lines
264-287) for code `l`.  `fs` is the set (list) of locally present files;
`fetchOk u` says whether `downloadFile u _` succeeds — per main.go lines
208-230 a non-200 HTTP status is a failure and leaves no file.  Returns the
new file set, the fetch attempts made (URLs, in order), and the error, if
any, that aborts `checkLanguages` (modelled as the failing script URL, the
URL named by the last `downloadFile` error). -/
def ensureLang (dataDir : String) (fetchOk : String → Bool) (fs : List String)
    (l : String) : List String × List String × Option String :=
  let f := tessLangFile dataDir l
  if f ∈ fs then (fs, [], none)
  else
    let u := langFileURL l
    if fetchOk u then (f :: fs, [u], none)
    else
      let v := scriptFileURL l
      if fetchOk v then (f :: fs, [u, v], none)
      else (fs, [u, v], some v)

/-- The loop of `checkLanguages` over `langsAll` (main.go lines 264-287):
processes codes in order, accumulating the file set and the fetch attempts,
stopping at the first code whose two fetch attempts both fail. -/
def checkLanguagesLoop (dataDir : String) (fetchOk : String → Bool) :
    List String → List String → List String × List String × Option String
  | [], fs => (fs, [], none)
  | l :: rest, fs =>
    let s := ensureLang dataDir fetchOk fs l
    match s.2.2 with
    | some e => (s.1, s.2.1, some e)
    | none =>
      let r := checkLanguagesLoop dataDir fetchOk rest s.1
      (r.1, s.2.1 ++ r.2.1, r.2.2)

/-- Embeds `checkLanguages` (main.go lines 232-290): expand the requested
`+`-joined language string, then ensure each code's data file is present,
fetching on demand.  Result: final local file set, fetch attempts, and the
aborting error if any. -/
def checkLanguages (dataDir : String) (fetchOk : String → Bool)
    (fs : List String) (langStr : String) :
    List String × List String × Option String :=
  checkLanguagesLoop dataDir fetchOk (expandLanguages langStr) fs

/-! ## `cmd/ocr-lambda/main.go`: image conversion stage -/

/-- Outcome of `runCommand` (main.go lines 190-206): the captured combined
output of the external process, and the error, if any, from `exec` (a
nonzero exit produces `some` message). -/
structure RunResult where
  output : String
  err : Option String
  deriving DecidableEq

/-- The command run by `convertImage` (main.go line 295). -/
def convertImageCmd : String := "magick"

/-- Embeds the argument list built at main.go line 296: the fixed option set,
the source image addressed at its first frame (`src[0]`), and the resize
percentage `scale%`. -/
def convertImageArgs (localSourceImage localConvertedImage scale : String) :
    List String :=
  ["convert", "-units", "PixelsPerInch", "-type", "Grayscale", "+compress",
   "+repage", localSourceImage ++ "[0]", "-filter", "Lanczos", "-resize",
   scale ++ "%", localConvertedImage]

/-- Embeds `convertImage` (main.go lines 292-303): run the image tool via
`runCommand` (abstracted as `run`); on error return the wrapped message
`failed to convert source image: [err] (out)`, on success return `none`. -/
def convertImage (run : String → List String → RunResult)
    (localSourceImage localConvertedImage scale : String) : Option String :=
  let r := run convertImageCmd
    (convertImageArgs localSourceImage localConvertedImage scale)
  match r.err with
  | some e => some ("failed to convert source image: [" ++ e ++ "] (" ++ r.output ++ ")")
  | none => none

/-! ## `cmd/ocr-lambda`: worker pipeline control flow

`handleGenericOcrRequest` (main.go lines 353-445) and the old variant's
`handleWorkflowOcrRequest` (old lambda lines 331-438) are sequences of
stages, each short-circuiting on error.  The stages' own outcomes depend on
the outside world (S3, HTTP, external tools), so the control flow is
modelled as a function of one boolean per fallible stage, producing the
ordered list of performed actions and the success of the invocation. -/

/-- Which stages of one pipeline invocation fail.  `VersionCheck`
(`getSoftwareVersions`) has no failure flag: it never fails the pipeline. -/
structure StageFaults where
  mkdirFails : Bool
  chdirFails : Bool
  downloadFails : Bool
  langFails : Bool
  convertFails : Bool
  ocrFails : Bool
  readFails : Bool
  uploadFails : Bool
  deriving DecidableEq

/-- Observable actions of one lambda pipeline invocation, in program order.
A stage appears in the trace when it is attempted, whether or not it
fails. -/
inductive PEff where
  | mkdirWork
  | chdirWork
  | download
  | versionCheck
  | langResolve
  | convert
  | recognize
  | readResults
  | saveHistory
  | uploadResults
  | removeWorkDir
  deriving DecidableEq

/-- Models the `filepath.Glob("results.*")` selection of `uploadResults`
(main.go lines 170-188): a working-directory file is uploaded exactly when
its name matches the glob, i.e. starts with `results.` and is a plain name
(no path separator). -/
def resultsGlobMatches (name : String) : Bool :=
  "results.".data.isPrefixOf name.data && !(name.data.contains '/')

/-- The files `uploadResults` uploads, out of the local working-directory
listing. -/
def uploadResultsSelection (localFiles : List String) : List String :=
  localFiles.filter resultsGlobMatches

/-- The file written by `saveCommandHistory` (main.go lines 340-351):
`resultsBase.log`, i.e. `results.log` for the pipeline's fixed
`resultsBase = "results"`. -/
def commandHistoryFile (resultsBase : String) : String :=
  resultsBase ++ ".log"

/-- The body of `handleGenericOcrRequest` after the working directory is
created (main.go lines 389-444): chdir, image download, version check,
language resolution, convert, recognize, read results — each failure
returning immediately (the deferred cleanup still runs). -/
def genericBody (f : StageFaults) : List PEff × Bool :=
  if f.chdirFails then ([PEff.chdirWork], false)
  else if f.downloadFails then ([PEff.chdirWork, PEff.download], false)
  else if f.langFails then
    ([PEff.chdirWork, PEff.download, PEff.versionCheck, PEff.langResolve], false)
  else if f.convertFails then
    ([PEff.chdirWork, PEff.download, PEff.versionCheck, PEff.langResolve,
      PEff.convert], false)
  else if f.ocrFails then
    ([PEff.chdirWork, PEff.download, PEff.versionCheck, PEff.langResolve,
      PEff.convert, PEff.recognize], false)
  else if f.readFails then
    ([PEff.chdirWork, PEff.download, PEff.versionCheck, PEff.langResolve,
      PEff.convert, PEff.recognize, PEff.readResults], false)
  else
    ([PEff.chdirWork, PEff.download, PEff.versionCheck, PEff.langResolve,
      PEff.convert, PEff.recognize, PEff.readResults], true)

/-- Embeds `handleGenericOcrRequest` (main.go lines 353-445).  If `MkdirAll`
fails the function returns before the deferred cleanup is registered (lines
377-379).  Otherwise the `defer` at lines 381-387 runs whatever the body
did: `saveCommandHistory`, `uploadResults` (its error ignored — best
effort), and removal of the working directory. -/
def handleGenericOcrRequest (f : StageFaults) : List PEff × Bool :=
  if f.mkdirFails then ([PEff.mkdirWork], false)
  else
    (PEff.mkdirWork ::
       (genericBody f).1 ++
       [PEff.saveHistory, PEff.uploadResults, PEff.removeWorkDir],
     (genericBody f).2)

/-- The body of the old variant's `handleWorkflowOcrRequest` (old lambda
lines 372-437): the same stage chain, but `saveCommandHistory` and
`uploadResults` are ordinary statements after the result read succeeds
(lines 416-424), and an upload error fails the invocation. -/
def workflowOldBody (f : StageFaults) : List PEff × Bool :=
  if f.chdirFails then ([PEff.chdirWork], false)
  else if f.downloadFails then ([PEff.chdirWork, PEff.download], false)
  else if f.langFails then
    ([PEff.chdirWork, PEff.download, PEff.versionCheck, PEff.langResolve], false)
  else if f.convertFails then
    ([PEff.chdirWork, PEff.download, PEff.versionCheck, PEff.langResolve,
      PEff.convert], false)
  else if f.ocrFails then
    ([PEff.chdirWork, PEff.download, PEff.versionCheck, PEff.langResolve,
      PEff.convert, PEff.recognize], false)
  else if f.readFails then
    ([PEff.chdirWork, PEff.download, PEff.versionCheck, PEff.langResolve,
      PEff.convert, PEff.recognize, PEff.readResults], false)
  else
    ([PEff.chdirWork, PEff.download, PEff.versionCheck, PEff.langResolve,
      PEff.convert, PEff.recognize, PEff.readResults, PEff.saveHistory,
      PEff.uploadResults], !f.uploadFails)

/-- Embeds the old lambda variant's `handleWorkflowOcrRequest` (old lambda
lines 331-438).  Its `defer` (lines 367-370) only changes directory and
removes the working directory: the log write and result uploads happen only
on the all-stages-succeeded path inside the body. -/
def handleWorkflowOcrRequestOld (f : StageFaults) : List PEff × Bool :=
  if f.mkdirFails then ([PEff.mkdirWork], false)
  else
    (PEff.mkdirWork :: (workflowOldBody f).1 ++ [PEff.removeWorkDir],
     (workflowOldBody f).2)

/-! ## `cmd/ocr-lambda/main.go`: request dispatch (`handleOcrRequest`) -/

/-- The part of an S3 event record the standalone path reads
(`req.Records[0].S3.Bucket.Name` / `.Object.Key`, main.go lines 479-480). -/
structure S3Record where
  bucketName : String
  objectKey : String
  deriving DecidableEq

/-- Embeds `lambdaRequestType` (main.go lines 27-34 and 90-98): the embedded
workflow fields and the S3 event records. -/
structure LambdaRequest where
  lang : String
  scale : String
  bucket : String
  key : String
  parentPid : String
  pid : String
  records : List S3Record
  deriving DecidableEq

/-- Which branch `handleOcrRequest` takes. -/
inductive LambdaPath where
  | workflow
  | standalone
  | unhandled
  deriving DecidableEq

/-- Embeds `handleOcrRequest` (main.go lines 496-506; the old variant, old
lambda lines 444-454, has the same dispatch): a non-empty `Pid` selects the
workflow path, otherwise a non-empty `Records` list selects the standalone
path, otherwise the lambda returns the error `unhandled request type` having
performed no pipeline action.  Both pipeline-bearing paths run
`handleGenericOcrRequest` with their respective configurations. -/
def handleOcrRequest (f : StageFaults) (req : LambdaRequest) :
    LambdaPath × List PEff × Bool :=
  if req.pid ≠ "" then (LambdaPath.workflow, handleGenericOcrRequest f)
  else if req.records.length > 0 then
    (LambdaPath.standalone, handleGenericOcrRequest f)
  else (LambdaPath.unhandled, [], false)

/-! ## Helper lemmas -/

/-- Membership in the append-accumulating fold that builds `langsAll`. -/
lemma mem_foldl_contrib (L : List String) :
    ∀ (init : List String) (x : String),
      x ∈ L.foldl (fun acc l => acc ++ langContrib l) init ↔
        x ∈ init ∨ ∃ c ∈ L, x ∈ langContrib c := by
  induction L with
  | nil => intro init x; simp
  | cons l rest ih =>
    intro init x
    simp only [List.foldl_cons, ih, List.mem_append, List.mem_cons]
    constructor
    · rintro (((h | h) | h))
      · exact Or.inl h
      · exact Or.inr ⟨l, Or.inl rfl, h⟩
      · obtain ⟨c, hc, hx⟩ := h
        exact Or.inr ⟨c, Or.inr hc, hx⟩
    · rintro (h | ⟨c, (rfl | hc), hx⟩)
      · exact Or.inl (Or.inl h)
      · exact Or.inl (Or.inr hx)
      · exact Or.inr ⟨c, hc, hx⟩

/-- Membership in one code's contribution: the code itself, or its table
pair, provided the component is non-empty. -/
lemma mem_langContrib (x c : String) :
    x ∈ langContrib c ↔ c ≠ "" ∧ (x = c ∨ langsMap c = some x) := by
  unfold langContrib
  by_cases hc : c = ""
  · simp [hc]
  · cases h : langsMap c with
    | none => simp [hc, h]
    | some d =>
      simp only [hc, if_false, h, List.mem_cons, List.not_mem_nil, or_false,
        ne_eq, not_false_iff, true_and, Option.some_inj]
      constructor
      · rintro (rfl | rfl)
        · exact Or.inl rfl
        · exact Or.inr rfl
      · rintro (rfl | rfl)
        · exact Or.inl rfl
        · exact Or.inr rfl

/-- Membership in the expanded language set. -/
lemma mem_expandLanguages (x s : String) :
    x ∈ expandLanguages s ↔
      x = "osd" ∨ ∃ c ∈ goSplit s, c ≠ "" ∧ (x = c ∨ langsMap c = some x) := by
  unfold expandLanguages
  rw [mem_foldl_contrib]
  simp only [List.mem_singleton, mem_langContrib]

/-- `ensureLang` never removes files. -/
lemma ensureLang_mono (dataDir : String) (fetchOk : String → Bool)
    (fs : List String) (l x : String) (hx : x ∈ fs) :
    x ∈ (ensureLang dataDir fetchOk fs l).1 := by
  unfold ensureLang
  dsimp only
  split
  · exact hx
  · split
    · exact List.mem_cons_of_mem _ hx
    · split
      · exact List.mem_cons_of_mem _ hx
      · exact hx

/-- When `ensureLang` does not error, the code's data file is present in the
resulting file set. -/
lemma ensureLang_none_present (dataDir : String) (fetchOk : String → Bool)
    (fs : List String) (l : String)
    (h : (ensureLang dataDir fetchOk fs l).2.2 = none) :
    tessLangFile dataDir l ∈ (ensureLang dataDir fetchOk fs l).1 := by
  by_cases hmem : tessLangFile dataDir l ∈ fs
  · unfold ensureLang; simp [hmem]
  · by_cases hu : fetchOk (langFileURL l) = true
    · unfold ensureLang; simp [hmem, hu]
    · by_cases hv : fetchOk (scriptFileURL l) = true
      · unfold ensureLang; simp [hmem, hu, hv]
      · exfalso
        unfold ensureLang at h
        simp [hmem, hu, hv] at h

/-- The loop never removes files. -/
lemma checkLoop_mono (dataDir : String) (fetchOk : String → Bool) :
    ∀ (L : List String) (fs : List String) (x : String), x ∈ fs →
      x ∈ (checkLanguagesLoop dataDir fetchOk L fs).1 := by
  intro L
  induction L with
  | nil => intro fs x hx; exact hx
  | cons l rest ih =>
    intro fs x hx
    unfold checkLanguagesLoop
    dsimp only
    split
    · exact ensureLang_mono dataDir fetchOk fs l x hx
    · exact ih _ _ (ensureLang_mono dataDir fetchOk fs l x hx)

/-- If the loop succeeds, every processed code's data file is in the final
file set. -/
lemma checkLoop_success_present (dataDir : String) (fetchOk : String → Bool) :
    ∀ (L : List String) (fs : List String),
      (checkLanguagesLoop dataDir fetchOk L fs).2.2 = none →
      ∀ l ∈ L, tessLangFile dataDir l ∈ (checkLanguagesLoop dataDir fetchOk L fs).1 := by
  intro L
  induction L with
  | nil => intro fs _ l hl; simp at hl
  | cons c rest ih =>
    intro fs hnone l hl
    unfold checkLanguagesLoop at hnone ⊢
    dsimp only at hnone ⊢
    split at hnone
    · next e heq => simp at hnone
    · next heq =>
      dsimp only at hnone ⊢
      rcases List.mem_cons.mp hl with rfl | hl
      · exact checkLoop_mono dataDir fetchOk rest _ _
          (ensureLang_none_present dataDir fetchOk fs l heq)
      · exact ih _ hnone l hl

/-- If every processed code's file is already present, the loop changes
nothing, makes no fetch attempt, and succeeds. -/
lemma checkLoop_all_present (dataDir : String) (fetchOk : String → Bool) :
    ∀ (L : List String) (fs : List String),
      (∀ l ∈ L, tessLangFile dataDir l ∈ fs) →
      checkLanguagesLoop dataDir fetchOk L fs = (fs, [], none) := by
  intro L
  induction L with
  | nil => intro fs _; rfl
  | cons c rest ih =>
    intro fs hall
    have hc : tessLangFile dataDir c ∈ fs := hall c (List.mem_cons_self _ _)
    have hstep : ensureLang dataDir fetchOk fs c = (fs, [], none) := by
      unfold ensureLang
      simp [hc]
    unfold checkLanguagesLoop
    rw [hstep]
    dsimp only
    rw [ih fs (fun l hl => hall l (List.mem_cons_of_mem _ hl))]
    rfl

/-- Under universally failing fetches, a successful loop means every
processed code's file was already present at the start. -/
lemma checkLoop_allfail_present (dataDir : String) (fetchOk : String → Bool)
    (hfail : ∀ u, fetchOk u = false) :
    ∀ (L : List String) (fs : List String),
      (checkLanguagesLoop dataDir fetchOk L fs).2.2 = none →
      ∀ l ∈ L, tessLangFile dataDir l ∈ fs := by
  intro L
  induction L with
  | nil => intro fs _ l hl; simp at hl
  | cons c rest ih =>
    intro fs hnone l hl
    by_cases hc : tessLangFile dataDir c ∈ fs
    · have hstep : ensureLang dataDir fetchOk fs c = (fs, [], none) := by
        unfold ensureLang; simp [hc]
      unfold checkLanguagesLoop at hnone
      rw [hstep] at hnone
      dsimp only at hnone
      rcases List.mem_cons.mp hl with rfl | hl
      · exact hc
      · exact ih fs hnone l hl
    · exfalso
      have hstep : (ensureLang dataDir fetchOk fs c).2.2 = some (scriptFileURL c) := by
        unfold ensureLang
        simp [hc, hfail]
      unfold checkLanguagesLoop at hnone
      dsimp only at hnone
      split at hnone
      · simp at hnone
      · next heq => rw [heq] at hstep; cases hstep

/-! ## Claim theorems -/

/-- C1: for every request whose derived job-identity key already has an
existing destination directory under the configured storage root, the
generate handler performs only the existence probe and the
completion-monitoring/notification call and returns: no metadata lookup, no
response write, and no OCR pipeline launch, so at most one pipeline is
started per key. -/
theorem spec_c1_existing_dest_monitors_only (env : GenerateEnv)
    (req : OcrRequest) (wd : String)
    (hwd : deriveWorkDir req = some wd)
    (hex : env.destExists (env.storageDir ++ "/" ++ wd) = true) :
    generateHandler env req =
      [GEffect.statDest (env.storageDir ++ "/" ++ wd),
       GEffect.monitorProgress wd req.pid req.email] ∧
    ∀ w, GEffect.launchOcr w ∉ generateHandler env req := by
  have h1 : generateHandler env req =
      [GEffect.statDest (env.storageDir ++ "/" ++ wd),
       GEffect.monitorProgress wd req.pid req.email] := by
    unfold generateHandler
    rw [hwd]
    simp [hex]
  refine ⟨h1, ?_⟩
  intro w
  rw [h1]
  simp

/-- Witness for C1: a full-document request whose destination directory
already exists yields exactly the probe and the monitor call. -/
theorem spec_c1_witness :
    deriveWorkDir (⟨"uva-lib:9", "", "", "", "e@x"⟩ : OcrRequest) = some "uva-lib:9" ∧
    generateHandler ⟨"/lib_content27/ocr", fun _ => true, Except.ok []⟩
        ⟨"uva-lib:9", "", "", "", "e@x"⟩ =
      [GEffect.statDest "/lib_content27/ocr/uva-lib:9",
       GEffect.monitorProgress "uva-lib:9" "uva-lib:9" "e@x"] :=
  ⟨by decide,
   (spec_c1_existing_dest_monitors_only
      ⟨"/lib_content27/ocr", fun _ => true, Except.ok []⟩
      ⟨"uva-lib:9", "", "", "", "e@x"⟩ "uva-lib:9" (by decide) (by decide)).1⟩

/-- C3: a request with a non-empty page list but an empty token is answered
with status 400 and body `Missing token`, and the handler performs nothing
else: no destination-directory probe, no Tracksys lookup, no pipeline
launch. -/
theorem spec_c3_missing_token_rejected (env : GenerateEnv) (req : OcrRequest)
    (hp : 0 < req.pages.length) (ht : req.token.length = 0) :
    generateHandler env req = [GEffect.respond 400 "Missing token"] := by
  unfold generateHandler deriveWorkDir
  simp [hp, ht]

/-- Witness for C3: a page-list request without a token gets the 400
response and nothing else. -/
theorem spec_c3_witness :
    0 < ((⟨"uva-lib:123", "", "1,3", "", "a@b.c"⟩ : OcrRequest).pages).length ∧
    ((⟨"uva-lib:123", "", "1,3", "", "a@b.c"⟩ : OcrRequest).token).length = 0 ∧
    generateHandler ⟨"/lib", fun _ => true, Except.ok []⟩
        ⟨"uva-lib:123", "", "1,3", "", "a@b.c"⟩ =
      [GEffect.respond 400 "Missing token"] :=
  ⟨by decide, by decide,
   spec_c3_missing_token_rejected ⟨"/lib", fun _ => true, Except.ok []⟩
     ⟨"uva-lib:123", "", "1,3", "", "a@b.c"⟩ (by decide) (by decide)⟩

/-- C4: job-identity derivation is a pure function of the three request
shapes — the pid alone for a full-document request, `pid/unitID` when the
parsed unit id is positive, the token alone when a page list is present —
and is unchanged by the notification email or by the particular contents of
a non-empty page list. -/
theorem spec_c4_job_identity (req : OcrRequest) :
    (req.pages.length = 0 → goAtoi req.unit ≤ 0 →
      deriveWorkDir req = some req.pid)
    ∧ (req.pages.length = 0 → 0 < goAtoi req.unit →
      deriveWorkDir req = some (req.pid ++ "/" ++ toString (goAtoi req.unit)))
    ∧ (0 < req.pages.length → 0 < req.token.length →
      deriveWorkDir req = some req.token)
    ∧ (∀ e, deriveWorkDir { req with email := e } = deriveWorkDir req)
    ∧ (∀ p, 0 < req.pages.length → 0 < p.length →
      deriveWorkDir { req with pages := p } = deriveWorkDir req) := by
  refine ⟨?_, ?_, ?_, ?_, ?_⟩
  · intro h1 h2
    unfold deriveWorkDir
    have hp : ¬ req.pages.length > 0 := by omega
    have hu : ¬ goAtoi req.unit > 0 := by omega
    simp [hp, hu]
  · intro h1 h2
    unfold deriveWorkDir
    have hp : ¬ req.pages.length > 0 := by omega
    simp [hp, h2]
  · intro h1 h2
    unfold deriveWorkDir
    have ht : ¬ req.token.length = 0 := by omega
    simp [h1, ht]
  · intro e
    rfl
  · intro p h1 h2
    unfold deriveWorkDir
    simp [h1, h2]

/-- Witness for C4: the unit-scoped shape yields `pid/unitID`. -/
theorem spec_c4_witness :
    ((⟨"uva-lib:1", "3", "", "", "a@b"⟩ : OcrRequest).pages).length = 0 ∧
    0 < goAtoi ((⟨"uva-lib:1", "3", "", "", "a@b"⟩ : OcrRequest).unit) ∧
    deriveWorkDir (⟨"uva-lib:1", "3", "", "", "a@b"⟩ : OcrRequest) =
      some "uva-lib:1/3" :=
  ⟨by decide, by decide,
   (spec_c4_job_identity ⟨"uva-lib:1", "3", "", "", "a@b"⟩).2.1 (by decide) (by decide)⟩

/-- C9: when the Tracksys collaborator returns zero pages, or only pages
with empty identifiers (each dropped), the handler responds 404
`No pages found for this PID` and neither launches a pipeline nor performs
any further action. -/
theorem spec_c9_no_usable_pages_404 (env : GenerateEnv) (req : OcrRequest)
    (wd : String) (l : List PageInfo)
    (hwd : deriveWorkDir req = some wd)
    (hex : env.destExists (env.storageDir ++ "/" ++ wd) = false)
    (hts : env.tsPages = Except.ok l)
    (hall : ∀ p ∈ l, p.PID = "") :
    generateHandler env req =
      [GEffect.statDest (env.storageDir ++ "/" ++ wd),
       GEffect.tsPagesLookup req.pid,
       GEffect.respond 404 "No pages found for this PID"] ∧
    ∀ w, GEffect.launchOcr w ∉ generateHandler env req := by
  have hfilter : l.filter (fun p => p.PID ≠ "") = [] := by
    simp only [List.filter_eq_nil_iff]
    intro p hp
    simpa using hall p hp
  have h1 : generateHandler env req =
      [GEffect.statDest (env.storageDir ++ "/" ++ wd),
       GEffect.tsPagesLookup req.pid,
       GEffect.respond 404 "No pages found for this PID"] := by
    unfold generateHandler
    rw [hwd, hts]
    simp [hex, hfilter]
    exact hall
  refine ⟨h1, ?_⟩
  intro w
  rw [h1]
  simp

/-- Witness for C9: a collaborator answer consisting of one page with an
empty identifier produces the 404 and no launch. -/
theorem spec_c9_witness :
    (∀ p ∈ [(⟨"", "f.tif", "t", "", ""⟩ : PageInfo)], p.PID = "") ∧
    generateHandler
        ⟨"/lib", fun _ => false, Except.ok [⟨"", "f.tif", "t", "", ""⟩]⟩
        ⟨"uva-lib:5", "", "", "", "e"⟩ =
      [GEffect.statDest "/lib/uva-lib:5", GEffect.tsPagesLookup "uva-lib:5",
       GEffect.respond 404 "No pages found for this PID"] :=
  ⟨by decide,
   (spec_c9_no_usable_pages_404
      ⟨"/lib", fun _ => false, Except.ok [⟨"", "f.tif", "t", "", ""⟩]⟩
      ⟨"uva-lib:5", "", "", "", "e"⟩ "uva-lib:5" [⟨"", "f.tif", "t", "", ""⟩]
      (by decide) (by decide) rfl (by decide)).1⟩

/-- C5: the resolved language set consists exactly of the requested codes
(split on `+`, empty components dropped), the fixed `osd` code, and, for
each requested code in the pair table, its paired code; concretely,
resolving `"aze"` gives exactly `osd, aze, aze_cyrl`, resolving
`"aze_cyrl"` also includes `aze`, resolving `""` gives `osd` alone, and the
caller layer defaults an empty recognition-language string to `eng`. -/
theorem spec_c5_language_expansion :
    (∀ x s : String, x ∈ expandLanguages s ↔
        x = "osd" ∨ ∃ c ∈ goSplit s, c ≠ "" ∧ (x = c ∨ langsMap c = some x))
    ∧ expandLanguages "aze" = ["osd", "aze", "aze_cyrl"]
    ∧ "aze" ∈ expandLanguages "aze_cyrl"
    ∧ expandLanguages "" = ["osd"]
    ∧ effectiveLangStr "" = "eng" :=
  ⟨fun x s => mem_expandLanguages x s, by decide, by decide, by decide, rfl⟩

/-- C6: language resolution is idempotent — a successful resolution leaves a
file set from which resolving the same requested string again changes
nothing, performs zero remote fetch attempts, and succeeds. -/
theorem spec_c6_idempotent_no_refetch (dataDir : String)
    (fetchOk : String → Bool) (fs fs1 att : List String) (langStr : String)
    (h : checkLanguages dataDir fetchOk fs langStr = (fs1, att, none)) :
    checkLanguages dataDir fetchOk fs1 langStr = (fs1, [], none) := by
  unfold checkLanguages at h ⊢
  have hnone :
      (checkLanguagesLoop dataDir fetchOk (expandLanguages langStr) fs).2.2 = none := by
    rw [h]
  have hfs :
      (checkLanguagesLoop dataDir fetchOk (expandLanguages langStr) fs).1 = fs1 := by
    rw [h]
  have hall : ∀ l ∈ expandLanguages langStr, tessLangFile dataDir l ∈ fs1 := by
    intro l hl
    have hmem := checkLoop_success_present dataDir fetchOk
      (expandLanguages langStr) fs hnone l hl
    rwa [hfs] at hmem
  exact checkLoop_all_present dataDir fetchOk (expandLanguages langStr) fs1 hall

/-- Witness for C6: after resolving `"aze"` from an empty cache with all
fetches succeeding, a second resolution makes no fetch attempt. -/
theorem spec_c6_witness :
    checkLanguages "/tmp/tessdata" (fun _ => true) [] "aze" =
      (["/tmp/tessdata/aze_cyrl.traineddata", "/tmp/tessdata/aze.traineddata",
        "/tmp/tessdata/osd.traineddata"],
       [langFileURL "osd", langFileURL "aze", langFileURL "aze_cyrl"], none) ∧
    checkLanguages "/tmp/tessdata" (fun _ => true)
        ["/tmp/tessdata/aze_cyrl.traineddata", "/tmp/tessdata/aze.traineddata",
         "/tmp/tessdata/osd.traineddata"] "aze" =
      (["/tmp/tessdata/aze_cyrl.traineddata", "/tmp/tessdata/aze.traineddata",
        "/tmp/tessdata/osd.traineddata"], [], none) :=
  ⟨by decide,
   spec_c6_idempotent_no_refetch "/tmp/tessdata" (fun _ => true) []
     ["/tmp/tessdata/aze_cyrl.traineddata", "/tmp/tessdata/aze.traineddata",
      "/tmp/tessdata/osd.traineddata"]
     [langFileURL "osd", langFileURL "aze", langFileURL "aze_cyrl"] "aze"
     (by decide)⟩

/-- C7: a code whose data file is absent is fetched first from the
language-file URL and then from the script-file URL, and when both attempts
fail the resolver returns that fetch error; a successful resolution leaves
no code without its data file; with all fetches failing, any missing code
makes the whole resolution fail; and a language-resolution failure aborts
the pipeline before the conversion stage, with the invocation returning an
error. -/
theorem spec_c7_fetch_failure_fatal (dataDir : String)
    (fetchOk : String → Bool) (fs : List String) (l s : String) :
    (tessLangFile dataDir l ∉ fs → fetchOk (langFileURL l) = false →
      fetchOk (scriptFileURL l) = false →
      ensureLang dataDir fetchOk fs l =
        (fs, [langFileURL l, scriptFileURL l], some (scriptFileURL l)))
    ∧ ((checkLanguages dataDir fetchOk fs s).2.2 = none →
      ∀ c ∈ expandLanguages s,
        tessLangFile dataDir c ∈ (checkLanguages dataDir fetchOk fs s).1)
    ∧ ((∀ u, fetchOk u = false) →
      (∃ c ∈ expandLanguages s, tessLangFile dataDir c ∉ fs) →
      (checkLanguages dataDir fetchOk fs s).2.2 ≠ none)
    ∧ (∀ f : StageFaults, f.mkdirFails = false → f.chdirFails = false →
      f.downloadFails = false → f.langFails = true →
      (handleGenericOcrRequest f).2 = false ∧
        PEff.convert ∉ (handleGenericOcrRequest f).1) := by
  refine ⟨?_, ?_, ?_, ?_⟩
  · intro h1 h2 h3
    unfold ensureLang
    simp [h1, h2, h3]
  · intro hnone c hc
    exact checkLoop_success_present dataDir fetchOk (expandLanguages s) fs hnone c hc
  · rintro hfail ⟨c, hc, hnotin⟩ hnone
    exact hnotin
      (checkLoop_allfail_present dataDir fetchOk hfail (expandLanguages s) fs hnone c hc)
  · rintro ⟨mk, cd, dl, lg, cv, oc, rd, up⟩ h1 h2 h3 h4
    simp only at h1 h2 h3 h4
    subst h1; subst h2; subst h3; subst h4
    revert cv oc rd up
    decide

/-- Witness for C7: with every fetch failing and an empty cache, resolving
an unknown code attempts both URLs for it and the whole resolution errors. -/
theorem spec_c7_witness :
    ensureLang "/tmp/tessdata" (fun _ => false) [] "xyz" =
      ([], [langFileURL "xyz", scriptFileURL "xyz"], some (scriptFileURL "xyz")) ∧
    (checkLanguages "/tmp/tessdata" (fun _ => false) [] "xyz").2.2 ≠ none :=
  ⟨(spec_c7_fetch_failure_fatal "/tmp/tessdata" (fun _ => false) [] "xyz" "xyz").1
     (by decide) rfl rfl,
   (spec_c7_fetch_failure_fatal "/tmp/tessdata" (fun _ => false) [] "xyz" "xyz").2.2.1
     (fun _ => rfl) ⟨"xyz", by decide, by decide⟩⟩

/-- C2 counterexample: in the old lambda variant's
`handleWorkflowOcrRequest`, an invocation that reaches its working directory
(the `MkdirAll` succeeds) but fails at the recognition stage removes the
working directory without ever writing the command-history log or uploading
anything — refuting the claim that for every pipeline invocation reaching
its working directory the log write and uploads still run. -/
theorem spec_c2_counterexample :
    (⟨false, false, false, false, false, true, false, false⟩ : StageFaults).mkdirFails
        = false
    ∧ (handleWorkflowOcrRequestOld
        ⟨false, false, false, false, false, true, false, false⟩).1 =
      [PEff.mkdirWork, PEff.chdirWork, PEff.download, PEff.versionCheck,
       PEff.langResolve, PEff.convert, PEff.recognize, PEff.removeWorkDir]
    ∧ PEff.saveHistory ∉ (handleWorkflowOcrRequestOld
        ⟨false, false, false, false, false, true, false, false⟩).1
    ∧ PEff.uploadResults ∉ (handleWorkflowOcrRequestOld
        ⟨false, false, false, false, false, true, false, false⟩).1 := by
  decide

/-- C2 (amended): in the current lambda's `handleGenericOcrRequest`, every
invocation that reaches its working directory ends with the unconditional
cleanup — the command-history log is written, the upload of every local
file matching the `results.*` convention runs, and the working directory is
removed — regardless of which stage failed; in the old variant's
`handleWorkflowOcrRequest` only the working-directory removal is
unconditional, the log write and uploads running only when every stage
through the result read succeeds.  The upload step selects exactly the
local files matching the results-file convention, and the command-history
log file itself matches that convention. -/
theorem spec_c2_cleanup_always_runs (f : StageFaults)
    (h : f.mkdirFails = false) :
    (PEff.saveHistory ∈ (handleGenericOcrRequest f).1
      ∧ PEff.uploadResults ∈ (handleGenericOcrRequest f).1
      ∧ PEff.removeWorkDir ∈ (handleGenericOcrRequest f).1)
    ∧ PEff.removeWorkDir ∈ (handleWorkflowOcrRequestOld f).1
    ∧ (f.chdirFails = false → f.downloadFails = false → f.langFails = false →
      f.convertFails = false → f.ocrFails = false → f.readFails = false →
      PEff.saveHistory ∈ (handleWorkflowOcrRequestOld f).1
        ∧ PEff.uploadResults ∈ (handleWorkflowOcrRequestOld f).1)
    ∧ (∀ (name : String) (files : List String),
      name ∈ uploadResultsSelection files ↔
        name ∈ files ∧ resultsGlobMatches name = true)
    ∧ resultsGlobMatches (commandHistoryFile "results") = true := by
  obtain ⟨mk, cd, dl, lg, cv, oc, rd, up⟩ := f
  simp only at h
  subst h
  refine ⟨?_, ?_, ?_, ?_, ?_⟩
  · revert cd dl lg cv oc rd up; decide
  · revert cd dl lg cv oc rd up; decide
  · revert cd dl lg cv oc rd up; decide
  · intro name files
    simp [uploadResultsSelection, List.mem_filter]
  · decide

/-- Witness for C2 (amended): with recognition failing, the current
lambda's invocation still writes the log, uploads, and removes the working
directory. -/
theorem spec_c2_witness :
    (⟨false, false, false, false, false, true, false, false⟩ : StageFaults).mkdirFails
        = false
    ∧ PEff.saveHistory ∈ (handleGenericOcrRequest
        ⟨false, false, false, false, false, true, false, false⟩).1
    ∧ PEff.uploadResults ∈ (handleGenericOcrRequest
        ⟨false, false, false, false, false, true, false, false⟩).1
    ∧ PEff.removeWorkDir ∈ (handleGenericOcrRequest
        ⟨false, false, false, false, false, true, false, false⟩).1 :=
  ⟨rfl,
   (spec_c2_cleanup_always_runs
      ⟨false, false, false, false, false, true, false, false⟩ rfl).1.1,
   (spec_c2_cleanup_always_runs
      ⟨false, false, false, false, false, true, false, false⟩ rfl).1.2.1,
   (spec_c2_cleanup_always_runs
      ⟨false, false, false, false, false, true, false, false⟩ rfl).1.2.2⟩

/-- C8: the image-normalization stage runs the external tool with exactly
the fixed option set — grayscale type, compression disabled, page geometry
reset, Lanczos filter, PixelsPerInch units — addressing the first frame of
the source (`src[0]`), with resize argument `scale%`; a tool error makes
the stage return an error wrapping the captured combined output, and a
conversion failure aborts the pipeline before recognition. -/
theorem spec_c8_convert_args_and_error (run : String → List String → RunResult)
    (src conv scale : String) :
    convertImageCmd = "magick"
    ∧ convertImageArgs src conv scale =
      ["convert", "-units", "PixelsPerInch", "-type", "Grayscale",
       "+compress", "+repage", src ++ "[0]", "-filter", "Lanczos",
       "-resize", scale ++ "%", conv]
    ∧ (convertImageArgs src conv scale).get? 11 = some (scale ++ "%")
    ∧ (convertImageArgs src conv "50").get? 11 = some "50%"
    ∧ (∀ e, (run convertImageCmd (convertImageArgs src conv scale)).err = some e →
      convertImage run src conv scale =
        some ("failed to convert source image: [" ++ e ++ "] ("
          ++ (run convertImageCmd (convertImageArgs src conv scale)).output ++ ")"))
    ∧ ((run convertImageCmd (convertImageArgs src conv scale)).err = none →
      convertImage run src conv scale = none)
    ∧ (∀ f : StageFaults, f.mkdirFails = false → f.chdirFails = false →
      f.downloadFails = false → f.langFails = false → f.convertFails = true →
      (handleGenericOcrRequest f).2 = false ∧
        PEff.recognize ∉ (handleGenericOcrRequest f).1) := by
  refine ⟨rfl, rfl, rfl, rfl, ?_, ?_, ?_⟩
  · intro e he
    unfold convertImage
    dsimp only
    rw [he]
  · intro he
    unfold convertImage
    dsimp only
    rw [he]
  · rintro ⟨mk, cd, dl, lg, cv, oc, rd, up⟩ h1 h2 h3 h4 h5
    simp only at h1 h2 h3 h4 h5
    subst h1; subst h2; subst h3; subst h4; subst h5
    revert oc rd up
    decide

/-- Witness for C8: a failing tool run at scale 50 produces the wrapped
error carrying the tool's combined output. -/
theorem spec_c8_witness :
    ((fun _ _ => (⟨"magick boom", some "exit status 1"⟩ : RunResult)) convertImageCmd
        (convertImageArgs "img.tif" "source-converted.tif" "50")).err
      = some "exit status 1"
    ∧ convertImage (fun _ _ => ⟨"magick boom", some "exit status 1"⟩)
        "img.tif" "source-converted.tif" "50" =
      some "failed to convert source image: [exit status 1] (magick boom)" :=
  ⟨rfl,
   (spec_c8_convert_args_and_error
      (fun _ _ => ⟨"magick boom", some "exit status 1"⟩)
      "img.tif" "source-converted.tif" "50").2.2.2.2.1 "exit status 1" rfl⟩

/-- C10: the lambda dispatches by shape in fixed precedence — a non-empty
`Pid` takes the workflow path even when S3 records are present, an empty
`Pid` with at least one record takes the standalone path, and a request
with neither returns the unhandled-request error having performed no
pipeline action. -/
theorem spec_c10_dispatch_precedence (f : StageFaults) (req : LambdaRequest) :
    (req.pid ≠ "" → (handleOcrRequest f req).1 = LambdaPath.workflow)
    ∧ (req.pid = "" → req.records ≠ [] →
      (handleOcrRequest f req).1 = LambdaPath.standalone)
    ∧ (req.pid = "" → req.records = [] →
      handleOcrRequest f req = (LambdaPath.unhandled, [], false)) := by
  refine ⟨?_, ?_, ?_⟩
  · intro h
    unfold handleOcrRequest
    simp [h]
  · intro h1 h2
    unfold handleOcrRequest
    have : 0 < req.records.length := List.length_pos.mpr h2
    simp [h1, this]
  · intro h1 h2
    unfold handleOcrRequest
    simp [h1, h2]

/-- Witness for C10: a request carrying both a pid and records takes the
workflow path, and a request with neither yields the unhandled outcome with
an empty action trace. -/
theorem spec_c10_witness :
    (handleOcrRequest ⟨false, false, false, false, false, false, false, false⟩
        ⟨"", "100", "b", "k", "pp", "uva-lib:7", [⟨"bkt", "key"⟩]⟩).1
      = LambdaPath.workflow
    ∧ handleOcrRequest ⟨false, false, false, false, false, false, false, false⟩
        ⟨"", "", "", "", "", "", []⟩ = (LambdaPath.unhandled, [], false) :=
  ⟨(spec_c10_dispatch_precedence
      ⟨false, false, false, false, false, false, false, false⟩
      ⟨"", "100", "b", "k", "pp", "uva-lib:7", [⟨"bkt", "key"⟩]⟩).1 (by decide),
   (spec_c10_dispatch_precedence
      ⟨false, false, false, false, false, false, false, false⟩
      ⟨"", "", "", "", "", "", []⟩).2.2 rfl rfl⟩

end Ocr

